import Mathlib

/-!
Verification of the sentiment classification service boundary of the
NLP-Text-Classification repository (`src/app.py`).

Embedding choices:
* Texts are `List Char` (Python slicing `text[:512]` and `str.strip()` are
  per-code-point operations).
* Scores are exact rationals `ℚ`; Python's `round(x, 4)` is modelled as
  round-half-to-even at 4 decimal places (`pyRound4`).
* The classifier adapter (`sentiment_pipeline`) is an explicit parameter of
  type `List Char → Except String RawPrediction`; a raised exception is an
  `Except.error` carrying the message.  The module-level nullable pipeline is
  an `Option` of that function type.
* `raise HTTPException` becomes returning `Except.error` with an `ApiError`.
-/

/-- Whitespace as stripped by Python's `str.strip()` (the ASCII whitespace
characters; the Unicode space characters Python additionally strips play no
role in any claim). -/
def pyIsSpace (c : Char) : Bool :=
  c = ' ' || c = '\t' || c = '\n' || c = '\r' ||
  c = (Char.ofNat 0x0b) || c = (Char.ofNat 0x0c)

/-- Python `text.strip()`: drop leading and trailing whitespace. -/
def pyStrip (s : List Char) : List Char :=
  ((s.dropWhile pyIsSpace).reverse.dropWhile pyIsSpace).reverse

/-- Round a rational to the nearest integer, ties to the even integer
(Python's `round` semantics, "banker's rounding"). -/
def roundHalfEven (q : ℚ) : ℤ :=
  let f := q.floor
  let r := q - f
  if r < 1/2 then f
  else if 1/2 < r then f + 1
  else if f % 2 = 0 then f else f + 1

/-- Python `round(q, 4)`. -/
def pyRound4 (q : ℚ) : ℚ :=
  (roundHalfEven (q * 10000) : ℚ) / 10000

/-- Raw output of one call to the classifier adapter: the dict
`{"label": ..., "score": ...}` at index 0 of the pipeline's result list. -/
structure RawPrediction where
  label : String
  score : ℚ
  deriving Repr, DecidableEq

/-- The classifier adapter: `sentiment_pipeline(text)[0]`, which either
returns a raw prediction or raises (an `Except.error` with the message). -/
def Pipe : Type := List Char → Except String RawPrediction

/-- Response model `SentimentOutput` of the `/analyze` endpoint.  An
`all_scores` entry `{"label": l, "score": s}` is modelled as the pair
`(l, s)`. -/
structure SentimentOutput where
  text : List Char
  sentiment : String
  confidence : ℚ
  all_scores : List (String × ℚ)
  deriving Repr, DecidableEq

/-- One record of the `results` list returned by `/batch-analyze`:
`{"text": ..., "sentiment": ..., "confidence": ...}` — by construction it
has no `all_scores` field. -/
structure BatchItem where
  text : List Char
  sentiment : String
  confidence : ℚ
  deriving Repr, DecidableEq

/-- The `HTTPException`s raised by the two endpoints. -/
inductive ApiError where
  /-- Status 503, detail "Model not loaded". -/
  | modelNotLoaded : ApiError
  /-- Status 400, detail "Text cannot be empty". -/
  | emptyText : ApiError
  /-- Status 400, detail "Texts list cannot be empty". -/
  | emptyTexts : ApiError
  /-- Status 500, detail is the underlying adapter exception message. -/
  | inference (msg : String) : ApiError
  deriving Repr, DecidableEq

/-- The body of `analyze_sentiment` (`src/app.py` lines 90–119): check the
pipeline is loaded, check the stripped text is non-empty, classify the first
512 characters, apply the 0.6 neutral threshold, and build the response
echoing the original text, with the rounded confidence and a one-entry
`all_scores` list. -/
def analyze_sentiment (pipe : Option Pipe) (text : List Char) :
    Except ApiError SentimentOutput :=
  match pipe with
  | none => .error .modelNotLoaded
  | some classify =>
    if (pyStrip text).isEmpty then .error .emptyText
    else
      match classify (text.take 512) with
      | .error e => .error (.inference e)
      | .ok result =>
        let sentiment := result.label
        let confidence := result.score
        let sentiment := if confidence < 0.6 then "NEUTRAL" else sentiment
        .ok { text := text
              sentiment := sentiment
              confidence := pyRound4 confidence
              all_scores := [(result.label, pyRound4 result.score)] }

/-- The `for text in input_data.texts[:10]` loop body of
`batch_analyze_sentiment` (`src/app.py` lines 139–153), applied to the
already-truncated list: skip items whose stripped form is empty, classify
the rest, and abort with the adapter's message on the first raised
exception (discarding every result accumulated so far, as the `try` block
encloses the whole loop). -/
def processBatch (classify : Pipe) : List (List Char) → Except String (List BatchItem)
  | [] => .ok []
  | text :: rest =>
    if (pyStrip text).isEmpty then processBatch classify rest
    else
      match classify (text.take 512) with
      | .error e => .error e
      | .ok result =>
        let sentiment := if result.score < 0.6 then "NEUTRAL" else result.label
        match processBatch classify rest with
        | .error e => .error e
        | .ok items =>
          .ok ({ text := text
                 sentiment := sentiment
                 confidence := pyRound4 result.score } :: items)

/-- The body of `batch_analyze_sentiment` (`src/app.py` lines 132–158):
check the pipeline is loaded, reject a literally empty list, then run the
loop over the first 10 items. -/
def batch_analyze_sentiment (pipe : Option Pipe) (texts : List (List Char)) :
    Except ApiError (List BatchItem) :=
  match pipe with
  | none => .error .modelNotLoaded
  | some classify =>
    if texts.isEmpty then .error .emptyTexts
    else
      match processBatch classify (texts.take 10) with
      | .error e => .error (.inference e)
      | .ok results => .ok results

/-- An adapter that returns the same raw prediction for every input
(used to instantiate universally quantified theorems at concrete inputs). -/
def pipeConst (r : RawPrediction) : Pipe := fun _ => .ok r

/-- An adapter that raises (message "kaboom") on the text "boom" and succeeds
on every other input. -/
def pipeBoom : Pipe := fun t =>
  if t = "boom".toList then .error "kaboom"
  else .ok { label := "POSITIVE", score := 99/100 }

/-- Unfolding of `analyze_sentiment` on the success path: a loaded pipeline, a
non-blank text and a successful classification yield the fully built
response. -/
theorem analyze_sentiment_ok_eq (f : Pipe) (text : List Char) (r : RawPrediction)
    (hne : (pyStrip text).isEmpty = false)
    (hc : f (text.take 512) = .ok r) :
    analyze_sentiment (some f) text = .ok
      { text := text
        sentiment := if r.score < 0.6 then "NEUTRAL" else r.label
        confidence := pyRound4 r.score
        all_scores := [(r.label, pyRound4 r.score)] } := by
  simp [analyze_sentiment, hne, hc]

/-- The texts of a successful batch run are exactly the non-blank inputs, in
order. -/
theorem processBatch_ok_map_text (f : Pipe) :
    ∀ (l : List (List Char)) (res : List BatchItem),
      processBatch f l = .ok res →
      res.map BatchItem.text = l.filter (fun t => !(pyStrip t).isEmpty) := by
  intro l
  induction l with
  | nil =>
    intro res h
    simp only [processBatch, Except.ok.injEq] at h
    subst h
    simp
  | cons t l ih =>
    intro res h
    cases hst : (pyStrip t).isEmpty with
    | true =>
      simp only [processBatch, hst, if_true] at h
      simp [hst, ih res h]
    | false =>
      simp only [processBatch, hst, Bool.false_eq_true, if_false] at h
      cases hc : f (t.take 512) with
      | error e => simp [hc] at h
      | ok r =>
        simp only [hc] at h
        cases hr : processBatch f l with
        | error e => simp [hr] at h
        | ok items =>
          simp only [hr, Except.ok.injEq] at h
          subst h
          simp [hst, ih items hr]

/-- A batch whose retained items are all blank produces no results and no
error, whatever the adapter does. -/
theorem processBatch_ok_nil_of_all_blank (f : Pipe) :
    ∀ l : List (List Char), (∀ t ∈ l, (pyStrip t).isEmpty = true) →
      processBatch f l = .ok [] := by
  intro l
  induction l with
  | nil => intro _; rfl
  | cons t l ih =>
    intro hall
    have hst : (pyStrip t).isEmpty = true := hall t (List.mem_cons_self t l)
    simp only [processBatch, hst, if_true]
    exact ih fun u hu => hall u (List.mem_cons_of_mem t hu)

/-- When the adapter raises on the first retained non-blank failing item, the
loop propagates exactly that message, whatever was accumulated before. -/
theorem processBatch_error_eq (f : Pipe) :
    ∀ (pre : List (List Char)) (bad : List Char) (post : List (List Char)) (msg : String),
      (∀ t ∈ pre, (pyStrip t).isEmpty = true ∨ ∃ r, f (t.take 512) = Except.ok r) →
      (pyStrip bad).isEmpty = false →
      f (bad.take 512) = Except.error msg →
      processBatch f (pre ++ bad :: post) = .error msg := by
  intro pre
  induction pre with
  | nil =>
    intro bad post msg _ hbadne herr
    simp only [List.nil_append, processBatch, hbadne, Bool.false_eq_true, if_false, herr]
  | cons t pre ih =>
    intro bad post msg hpre hbadne herr
    have htail := ih bad post msg
      (fun u hu => hpre u (List.mem_cons_of_mem t hu)) hbadne herr
    rcases hpre t (List.mem_cons_self t pre) with hst | ⟨r, hr⟩
    · simp only [List.cons_append, processBatch, hst, if_true]
      exact htail
    · cases hst : (pyStrip t).isEmpty with
      | true => simp only [List.cons_append, processBatch, hst, if_true]; exact htail
      | false =>
        simp only [List.cons_append, processBatch, hst, Bool.false_eq_true, if_false, hr,
          List.append_eq, htail]

/-- A non-empty list stays non-empty after `take 10`. -/
theorem take_ten_nonempty (l : List (List Char)) (h : l.isEmpty = false) :
    (l.take 10).isEmpty = false := by
  cases l with
  | nil => simp at h
  | cons t l => rfl

/-- C1: for every raw prediction (rawLabel, score) returned by the adapter,
the final label of `analyze_sentiment` is NEUTRAL when score < 0.6 and is the
raw label unchanged when score ≥ 0.6 (so a score of exactly 0.6 keeps the raw
label, because the source comparison `confidence < 0.6` is strict). -/
theorem claim_neutral_threshold (f : Pipe) (text : List Char) (r : RawPrediction)
    (out : SentimentOutput)
    (hne : (pyStrip text).isEmpty = false)
    (hc : f (text.take 512) = .ok r)
    (hout : analyze_sentiment (some f) text = .ok out) :
    (r.score < 0.6 → out.sentiment = "NEUTRAL") ∧
      (0.6 ≤ r.score → out.sentiment = r.label) := by
  have h := analyze_sentiment_ok_eq f text r hne hc
  rw [hout] at h
  injection h with h
  subst h
  constructor
  · intro hlt
    simp [hlt]
  · intro hge
    simp [not_lt.mpr hge]

/-- Witness for C1 at the boundary score 0.6: the adapter label survives. -/
theorem claim_neutral_threshold_witness :
    ((0.6 : ℚ) < 0.6 →
      SentimentOutput.sentiment
        { text := "meh".toList, sentiment := "POSITIVE", confidence := pyRound4 0.6,
          all_scores := [("POSITIVE", pyRound4 0.6)] } = "NEUTRAL") ∧
    ((0.6 : ℚ) ≤ 0.6 →
      SentimentOutput.sentiment
        { text := "meh".toList, sentiment := "POSITIVE", confidence := pyRound4 0.6,
          all_scores := [("POSITIVE", pyRound4 0.6)] } = "POSITIVE") :=
  claim_neutral_threshold (pipeConst ⟨"POSITIVE", 0.6⟩) "meh".toList ⟨"POSITIVE", 0.6⟩
    { text := "meh".toList, sentiment := "POSITIVE", confidence := pyRound4 0.6,
      all_scores := [("POSITIVE", pyRound4 0.6)] }
    (by decide) rfl (by simp +decide [analyze_sentiment, pipeConst])

/-- C4: a blank input makes `analyze_sentiment` fail with the empty-text
client error for EVERY adapter (so the adapter is never consulted), and a
missing pipeline fails with the model-unavailable error for every input,
both before any inference work. -/
theorem claim_validation_before_inference (f : Pipe) (text : List Char)
    (hblank : (pyStrip text).isEmpty = true) :
    analyze_sentiment (some f) text = .error .emptyText ∧
    analyze_sentiment none text = .error .modelNotLoaded :=
  ⟨by simp [analyze_sentiment, hblank], rfl⟩

/-- Witness for C4 on the whitespace-only input "   ". -/
theorem claim_validation_before_inference_witness :
    analyze_sentiment (some (pipeConst ⟨"POSITIVE", 1⟩)) "   ".toList =
      .error .emptyText ∧
    analyze_sentiment none "   ".toList = .error .modelNotLoaded :=
  claim_validation_before_inference (pipeConst ⟨"POSITIVE", 1⟩) "   ".toList (by decide)

/-- C9: with the same (deterministic) adapter, two successful runs of
`analyze_sentiment` on equal input texts agree on the sentiment label and on
the confidence value. -/
theorem claim_two_run_determinism (f : Pipe) (t1 t2 : List Char)
    (o1 o2 : SentimentOutput) (heq : t1 = t2)
    (h1 : analyze_sentiment (some f) t1 = .ok o1)
    (h2 : analyze_sentiment (some f) t2 = .ok o2) :
    o1.sentiment = o2.sentiment ∧ o1.confidence = o2.confidence := by
  subst heq
  rw [h1] at h2
  injection h2 with h
  subst h
  exact ⟨rfl, rfl⟩

/-- Witness for C9: two runs on the text "good". -/
theorem claim_two_run_determinism_witness :
    SentimentOutput.sentiment
        { text := "good".toList, sentiment := "POSITIVE", confidence := pyRound4 0.95,
          all_scores := [("POSITIVE", pyRound4 0.95)] } =
      SentimentOutput.sentiment
        { text := "good".toList, sentiment := "POSITIVE", confidence := pyRound4 0.95,
          all_scores := [("POSITIVE", pyRound4 0.95)] } ∧
    SentimentOutput.confidence
        { text := "good".toList, sentiment := "POSITIVE", confidence := pyRound4 0.95,
          all_scores := [("POSITIVE", pyRound4 0.95)] } =
      SentimentOutput.confidence
        { text := "good".toList, sentiment := "POSITIVE", confidence := pyRound4 0.95,
          all_scores := [("POSITIVE", pyRound4 0.95)] } :=
  claim_two_run_determinism (pipeConst ⟨"POSITIVE", 0.95⟩) "good".toList "good".toList
    { text := "good".toList, sentiment := "POSITIVE", confidence := pyRound4 0.95,
      all_scores := [("POSITIVE", pyRound4 0.95)] }
    { text := "good".toList, sentiment := "POSITIVE", confidence := pyRound4 0.95,
      all_scores := [("POSITIVE", pyRound4 0.95)] }
    rfl
    (by simp +decide [analyze_sentiment, pipeConst]; norm_num)
    (by simp +decide [analyze_sentiment, pipeConst]; norm_num)

/-- C3: on a non-blank input, `analyze_sentiment` consults the adapter only on
the first 512 characters of the text — any adapter agreeing with `f` on
`text.take 512` produces the very same response — while the `text` field of
the response is the original untruncated input. -/
theorem claim_truncation_and_echo (f g : Pipe) (text : List Char)
    (out : SentimentOutput)
    (hfg : f (text.take 512) = g (text.take 512))
    (hout : analyze_sentiment (some f) text = .ok out) :
    out.text = text ∧ analyze_sentiment (some g) text = .ok out := by
  cases hne : (pyStrip text).isEmpty with
  | true => simp [analyze_sentiment, hne] at hout
  | false =>
    cases hc : f (text.take 512) with
    | error e => simp [analyze_sentiment, hne, hc] at hout
    | ok r =>
      have h1 := analyze_sentiment_ok_eq f text r hne hc
      rw [hout] at h1
      injection h1 with h1
      have hcg : g (text.take 512) = .ok r := by rw [← hfg]; exact hc
      have h2 := analyze_sentiment_ok_eq g text r hne hcg
      subst h1
      exact ⟨rfl, h2⟩

set_option maxRecDepth 8192

/-- Witness for C3 on a 600-character input: the echoed text keeps all 600
characters even though classification saw only the first 512. -/
theorem claim_truncation_and_echo_witness :
    SentimentOutput.text
        { text := List.replicate 600 'a', sentiment := "POSITIVE",
          confidence := pyRound4 0.95,
          all_scores := [("POSITIVE", pyRound4 0.95)] } = List.replicate 600 'a' ∧
    analyze_sentiment (some (pipeConst ⟨"POSITIVE", 0.95⟩)) (List.replicate 600 'a') =
      .ok { text := List.replicate 600 'a', sentiment := "POSITIVE",
            confidence := pyRound4 0.95,
            all_scores := [("POSITIVE", pyRound4 0.95)] } :=
  claim_truncation_and_echo (pipeConst ⟨"POSITIVE", 0.95⟩) (pipeConst ⟨"POSITIVE", 0.95⟩)
    (List.replicate 600 'a')
    { text := List.replicate 600 'a', sentiment := "POSITIVE",
      confidence := pyRound4 0.95, all_scores := [("POSITIVE", pyRound4 0.95)] }
    rfl
    (by simp +decide [analyze_sentiment, pipeConst]; norm_num)

/-- C7: on the success path the `confidence` field equals the adapter's raw
score rounded to 4 decimal places, and that value has at most 4 decimal
digits: it is an integer multiple of 1/10000. -/
theorem claim_confidence_rounding (f : Pipe) (text : List Char) (r : RawPrediction)
    (out : SentimentOutput)
    (hne : (pyStrip text).isEmpty = false)
    (hc : f (text.take 512) = .ok r)
    (hout : analyze_sentiment (some f) text = .ok out) :
    out.confidence = pyRound4 r.score ∧
      ∃ n : ℤ, out.confidence = (n : ℚ) / 10000 := by
  have h := analyze_sentiment_ok_eq f text r hne hc
  rw [hout] at h
  injection h with h
  subst h
  exact ⟨rfl, ⟨roundHalfEven (r.score * 10000), rfl⟩⟩

/-- Witness for C7 with raw score 0.98765. -/
theorem claim_confidence_rounding_witness :
    SentimentOutput.confidence
        { text := "good".toList, sentiment := "POSITIVE", confidence := pyRound4 0.98765,
          all_scores := [("POSITIVE", pyRound4 0.98765)] } = pyRound4 0.98765 ∧
    ∃ n : ℤ,
      SentimentOutput.confidence
        { text := "good".toList, sentiment := "POSITIVE", confidence := pyRound4 0.98765,
          all_scores := [("POSITIVE", pyRound4 0.98765)] } = (n : ℚ) / 10000 :=
  claim_confidence_rounding (pipeConst ⟨"POSITIVE", 0.98765⟩) "good".toList
    ⟨"POSITIVE", 0.98765⟩
    { text := "good".toList, sentiment := "POSITIVE", confidence := pyRound4 0.98765,
      all_scores := [("POSITIVE", pyRound4 0.98765)] }
    (by decide) rfl
    (by simp +decide [analyze_sentiment, pipeConst]; norm_num)

/-- C8: the single-text response carries exactly one `all_scores` entry — the
raw label with the rounded raw score — whereas a `BatchItem` is fully
determined by its `text`, `sentiment` and `confidence` fields (it has no
detail list at all). -/
theorem claim_detail_asymmetry (f : Pipe) (text : List Char) (r : RawPrediction)
    (out : SentimentOutput)
    (hne : (pyStrip text).isEmpty = false)
    (hc : f (text.take 512) = .ok r)
    (hout : analyze_sentiment (some f) text = .ok out) :
    out.all_scores = [(r.label, pyRound4 r.score)] ∧
      ∀ b1 b2 : BatchItem, b1.text = b2.text → b1.sentiment = b2.sentiment →
        b1.confidence = b2.confidence → b1 = b2 := by
  have h := analyze_sentiment_ok_eq f text r hne hc
  rw [hout] at h
  injection h with h
  subst h
  refine ⟨rfl, ?_⟩
  intro b1 b2 h1 h2 h3
  cases b1
  cases b2
  simp_all

/-- Witness for C8 with raw score 0.95. -/
theorem claim_detail_asymmetry_witness :
    SentimentOutput.all_scores
        { text := "good".toList, sentiment := "POSITIVE", confidence := pyRound4 0.95,
          all_scores := [("POSITIVE", pyRound4 0.95)] } = [("POSITIVE", pyRound4 0.95)] ∧
    (∀ b1 b2 : BatchItem, b1.text = b2.text → b1.sentiment = b2.sentiment →
        b1.confidence = b2.confidence → b1 = b2) :=
  claim_detail_asymmetry (pipeConst ⟨"POSITIVE", 0.95⟩) "good".toList ⟨"POSITIVE", 0.95⟩
    { text := "good".toList, sentiment := "POSITIVE", confidence := pyRound4 0.95,
      all_scores := [("POSITIVE", pyRound4 0.95)] }
    (by decide) rfl
    (by simp +decide [analyze_sentiment, pipeConst]; norm_num)

/-- C2: if, among the first 10 items, the adapter raises on the first retained
non-blank item it reaches (every earlier retained item being blank-skipped or
successfully classified), then the whole batch call fails with an
`InferenceError` carrying the underlying message — no per-item results are
returned, not even for the items already classified before the failure. -/
theorem claim_batch_abort_on_error (f : Pipe) (texts pre post : List (List Char))
    (bad : List Char) (msg : String)
    (hsplit : texts.take 10 = pre ++ bad :: post)
    (hpre : ∀ t ∈ pre, (pyStrip t).isEmpty = true ∨ ∃ r, f (t.take 512) = Except.ok r)
    (hbadne : (pyStrip bad).isEmpty = false)
    (herr : f (bad.take 512) = Except.error msg) :
    batch_analyze_sentiment (some f) texts = .error (.inference msg) := by
  have hne : texts.isEmpty = false := by
    cases texts with
    | nil => simp at hsplit
    | cons a l => rfl
  have hrun := processBatch_error_eq f pre bad post msg hpre hbadne herr
  simp only [batch_analyze_sentiment, hne, Bool.false_eq_true, if_false, hsplit, hrun]

/-- Witness for C2: a two-item batch whose first item classifies fine and
whose second makes the adapter raise "kaboom". -/
theorem claim_batch_abort_on_error_witness :
    batch_analyze_sentiment (some pipeBoom) ["ok".toList, "boom".toList] =
      .error (.inference "kaboom") :=
  claim_batch_abort_on_error pipeBoom ["ok".toList, "boom".toList] ["ok".toList] []
    "boom".toList "kaboom" rfl
    (by
      intro t ht
      right
      refine ⟨{ label := "POSITIVE", score := 99/100 }, ?_⟩
      simp only [List.mem_singleton] at ht
      subst ht
      rfl)
    (by decide) rfl

/-- C5: every successful batch response has at most 10 result records, and the
whole call behaves exactly as if only the first 10 input items had been
submitted — items past the tenth are silently dropped. -/
theorem claim_batch_limit_ten (f : Pipe) (texts : List (List Char))
    (res : List BatchItem)
    (hok : batch_analyze_sentiment (some f) texts = .ok res) :
    res.length ≤ 10 ∧
      batch_analyze_sentiment (some f) texts =
        batch_analyze_sentiment (some f) (texts.take 10) := by
  cases hne : texts.isEmpty with
  | true => simp [batch_analyze_sentiment, hne] at hok
  | false =>
    simp only [batch_analyze_sentiment, hne, Bool.false_eq_true, if_false] at hok
    cases hpb : processBatch f (texts.take 10) with
    | error e => rw [hpb] at hok; simp at hok
    | ok items =>
      rw [hpb] at hok
      simp only [Except.ok.injEq] at hok
      subst hok
      have hmap := processBatch_ok_map_text f (texts.take 10) items hpb
      constructor
      · calc items.length
            = (items.map BatchItem.text).length := (List.length_map _ _).symm
          _ = ((texts.take 10).filter fun t => !(pyStrip t).isEmpty).length := by
              rw [hmap]
          _ ≤ (texts.take 10).length := List.length_filter_le _ _
          _ ≤ 10 := List.length_take_le _ _
      · have hne2 := take_ten_nonempty texts hne
        simp only [batch_analyze_sentiment, hne, hne2, Bool.false_eq_true, if_false,
          List.take_take, Nat.min_self]

/-- Witness for C5: fifteen copies of "hi" yield exactly ten result records. -/
theorem claim_batch_limit_ten_witness :
    (List.replicate 10
        ({ text := "hi".toList, sentiment := "POSITIVE",
           confidence := pyRound4 0.95 } : BatchItem)).length ≤ 10 ∧
      batch_analyze_sentiment (some (pipeConst ⟨"POSITIVE", 0.95⟩))
          (List.replicate 15 "hi".toList) =
        batch_analyze_sentiment (some (pipeConst ⟨"POSITIVE", 0.95⟩))
          ((List.replicate 15 "hi".toList).take 10) :=
  claim_batch_limit_ten (pipeConst ⟨"POSITIVE", 0.95⟩) (List.replicate 15 "hi".toList)
    (List.replicate 10 { text := "hi".toList, sentiment := "POSITIVE",
                         confidence := pyRound4 0.95 })
    (by
      simp +decide [batch_analyze_sentiment, processBatch, pipeConst, List.replicate]
      norm_num)

/-- C6: in every successful batch response, the blank (empty or
whitespace-only) retained items contribute nothing, and the `text` fields of
the result records list exactly the surviving non-blank retained inputs, in
their original relative order. -/
theorem claim_batch_skip_order (f : Pipe) (texts : List (List Char))
    (res : List BatchItem)
    (hok : batch_analyze_sentiment (some f) texts = .ok res) :
    res.map BatchItem.text = (texts.take 10).filter (fun t => !(pyStrip t).isEmpty) := by
  cases hne : texts.isEmpty with
  | true => simp [batch_analyze_sentiment, hne] at hok
  | false =>
    simp only [batch_analyze_sentiment, hne, Bool.false_eq_true, if_false] at hok
    cases hpb : processBatch f (texts.take 10) with
    | error e => rw [hpb] at hok; simp at hok
    | ok items =>
      rw [hpb] at hok
      simp only [Except.ok.injEq] at hok
      subst hok
      exact processBatch_ok_map_text f (texts.take 10) items hpb

/-- Witness for C6: the batch ["hello", "", "   ", "world"] yields exactly two
records, for "hello" then "world". -/
theorem claim_batch_skip_order_witness :
    ([ { text := "hello".toList, sentiment := "POSITIVE", confidence := pyRound4 0.95 },
       { text := "world".toList, sentiment := "POSITIVE",
         confidence := pyRound4 0.95 } ] : List BatchItem).map BatchItem.text =
      (["hello".toList, "".toList, "   ".toList, "world".toList].take 10).filter
        (fun t => !(pyStrip t).isEmpty) :=
  claim_batch_skip_order (pipeConst ⟨"POSITIVE", 0.95⟩)
    ["hello".toList, "".toList, "   ".toList, "world".toList]
    [ { text := "hello".toList, sentiment := "POSITIVE", confidence := pyRound4 0.95 },
      { text := "world".toList, sentiment := "POSITIVE", confidence := pyRound4 0.95 } ]
    (by
      simp +decide [batch_analyze_sentiment, processBatch, pipeConst]
      norm_num)

/-- C10: a non-empty batch consisting entirely of blank strings passes
validation (only a literally empty list triggers the empty-batch error) and
returns a successful response with an empty results list, for EVERY adapter —
so no adapter call is made. -/
theorem claim_batch_all_blank (f : Pipe) (texts : List (List Char))
    (hne : texts ≠ [])
    (hall : ∀ t ∈ texts, (pyStrip t).isEmpty = true) :
    batch_analyze_sentiment (some f) texts = .ok [] := by
  have h1 : texts.isEmpty = false := by
    cases texts with
    | nil => exact absurd rfl hne
    | cons a l => rfl
  have h2 := processBatch_ok_nil_of_all_blank f (texts.take 10)
    (fun t ht => hall t (List.take_subset _ _ ht))
  simp only [batch_analyze_sentiment, h1, Bool.false_eq_true, if_false, h2]

/-- Witness for C10 on the batch ["", "   "]. -/
theorem claim_batch_all_blank_witness :
    batch_analyze_sentiment (some (pipeConst ⟨"POSITIVE", 1⟩))
      ["".toList, "   ".toList] = .ok [] :=
  claim_batch_all_blank (pipeConst ⟨"POSITIVE", 1⟩) ["".toList, "   ".toList]
    (by decide) (by decide)
